import Mathlib

/-!
Shallow embedding of `src/modules/RTC/JitsiLocalTrack.js` (the local media
track wrapper of lib-jitsi-meet), together with theorems about its
mute/unmute state machine, device-identity resolution, lifecycle and
disposal behaviour.

Conventions of the embedding:
* JavaScript objects become Lean structures; nullable fields become `Option`.
* The asynchronous promise chains become explicit phases: the synchronous
  portion of a call is one function, and the continuations attached with
  `.then`/`.catch` (which always run in a later microtask) are a second
  function.  External asynchronous collaborators (conference room,
  getUserMedia) are modelled by an environment record holding their
  outcomes, and the side-effecting calls the code makes are recorded in an
  effect trace.
* Methods inherited from the base class `JitsiTrack` (which is not part of
  the analysed sources) are modelled from the specification and marked as
  such in their doc comments.
-/

namespace JitsiMeet

/-- Media type of a track (`service/RTC/MediaType`). -/
inductive MediaType
  | audio
  | video
deriving DecidableEq, Repr

/-- Video type of a video track (`service/RTC/VideoType`). -/
inductive VideoType
  | camera
  | desktop
deriving DecidableEq, Repr

/-- Camera facing mode (`service/RTC/CameraFacingMode`). -/
inductive CameraFacingMode
  | user
  | environment
deriving DecidableEq, Repr

/-- A native `MediaStreamTrack`.  `readyState = none` models a browser in
which the `readyState` property is `undefined` (the code tests
`typeof track.readyState === 'undefined'`). -/
structure NativeTrack where
  enabled : Bool
  readyState : Option String
  label : String
  kind : String
deriving DecidableEq, Repr

/-- A native `MediaStream`; `id` gives it an identity in effect traces and
`active` models the `MediaStream.active` flag. -/
structure NativeStream where
  id : Nat
  active : Bool
deriving DecidableEq, Repr

/-- One entry of the `enumerateDevices()` device list
(`MediaDeviceInfo`). -/
structure DeviceInfo where
  deviceId : String
  label : String
  kind : String
deriving DecidableEq, Repr

/-- The conference a local track may be attached to.  Only the facts the
track reads are modelled: whether `conference.room` is set. -/
structure Conference where
  hasRoom : Bool
deriving DecidableEq, Repr

/-- State of one `JitsiLocalTrack` instance.  Field names follow the
source.  `hasAudioOutputChangedHandler` records whether the constructor
registered `_onAudioOutputDeviceChanged` (audio track on a platform with
output-device change support). -/
structure JitsiLocalTrack where
  mediaType : MediaType
  videoType : Option VideoType
  stream : Option NativeStream
  track : Option NativeTrack
  resolution : Option Nat
  deviceId : String
  _realDeviceId : Option String
  _facingMode : Option CameraFacingMode
  _trackEnded : Bool
  inMuteOrUnmuteProgress : Bool
  startMuted : Bool
  dontFireRemoveEvent : Bool
  conference : Option Conference
  hasAudioOutputChangedHandler : Bool
deriving DecidableEq, Repr

/-- Error kinds (`JitsiTrackErrors`) relevant to this file. -/
inductive JitsiTrackError
  | trackMuteUnmuteInProgress
  | trackNoStreamFound
  | generic (code : Nat)
deriving DecidableEq, Repr

deriving instance DecidableEq for Except

namespace JitsiLocalTrack

/-- Modelled from the spec: base-class accessor `JitsiTrack.getTrack`
(source file not in the analysed slice); returns the wrapped native
capture track. -/
def getTrack (t : JitsiLocalTrack) : Option NativeTrack :=
  t.track

/-- Modelled from the spec: `JitsiTrack.isAudioTrack` — whether the
track's media kind is AUDIO. -/
def isAudioTrack (t : JitsiLocalTrack) : Bool :=
  t.mediaType == MediaType.audio

/-- Modelled from the spec: `JitsiTrack.isVideoTrack` — whether the
track's media kind is VIDEO. -/
def isVideoTrack (t : JitsiLocalTrack) : Bool :=
  t.mediaType == MediaType.video

/-- Modelled from the spec: `JitsiTrack.isActive` — whether the owning
native stream is currently active; a track without a stream is not
active. -/
def isActive (t : JitsiLocalTrack) : Bool :=
  match t.stream with
  | some s => s.active
  | none => false

/-- Modelled from the spec: `JitsiTrack.getType` — the media kind of the
track (also stored as `this.type`). -/
def getType (t : JitsiLocalTrack) : MediaType :=
  t.mediaType

/-- `this.conference && this.conference.room` — whether the track is bound
to a conference that has a room. -/
def hasRoom (t : JitsiLocalTrack) : Bool :=
  match t.conference with
  | some c => c.hasRoom
  | none => false

/-- `this.getTrack().readyState`; `none` when the property is undefined.
(The source would throw on a null track; the analysed paths always have
one, so a missing track is mapped to an undefined ready state.) -/
def trackReadyState (t : JitsiLocalTrack) : Option String :=
  match t.track with
  | some nt => nt.readyState
  | none => none

/-- `JitsiLocalTrack.prototype.isEnded` (source lines 101-103):
`this.getTrack().readyState === 'ended' || this._trackEnded`. -/
def isEnded (t : JitsiLocalTrack) : Bool :=
  trackReadyState t == some ("ended") || t._trackEnded

/-- `JitsiLocalTrack.prototype.isMuted` (source lines 378-387): a null
stream is muted; an inactive video stream is muted; otherwise muted iff
the native track is null or not enabled. -/
def isMuted (t : JitsiLocalTrack) : Bool :=
  match t.stream with
  | none => true
  | some _ =>
    if isVideoTrack t && !isActive t then
      true
    else
      match t.track with
      | none => true
      | some nt => !nt.enabled

/-- `JitsiLocalTrack.prototype.getDeviceId` (source lines 444-446):
`this._realDeviceId || this.deviceId`, with JavaScript truthiness (an
empty resolved id falls back to the requested id). -/
def getDeviceId (t : JitsiLocalTrack) : String :=
  match t._realDeviceId with
  | some id => if id == "" then t.deviceId else id
  | none => t.deviceId

/-- The predicate of the `devices.find` call in
`_setRealDeviceIdFromDeviceList`:
`d.kind === track.kind + 'input' && d.label === track.label`. -/
def deviceMatches (nt : NativeTrack) (d : DeviceInfo) : Bool :=
  d.kind == nt.kind ++ "input" && d.label == nt.label

/-- `JitsiLocalTrack.prototype._setRealDeviceIdFromDeviceList` (source
lines 112-121): adopt the device id of the first device whose kind and
label match the native track; otherwise leave `_realDeviceId` unchanged.
(The source assumes a native track is present.) -/
def _setRealDeviceIdFromDeviceList (t : JitsiLocalTrack)
    (devices : List DeviceInfo) : JitsiLocalTrack :=
  match t.track with
  | none => t
  | some nt =>
    match devices.find? (deviceMatches nt) with
    | some d => { t with _realDeviceId := some d.deviceId }
    | none => t

/-- `this._onDeviceListChanged` (constructor, source lines 64-77): update
`_realDeviceId` from the device list, then mark the track ended when the
browser exposes no `readyState`, a real device id is known, and that id is
absent from the new list. -/
def _onDeviceListChanged (t : JitsiLocalTrack)
    (devices : List DeviceInfo) : JitsiLocalTrack :=
  let t1 := _setRealDeviceIdFromDeviceList t devices
  if trackReadyState t1 == none
      && t1._realDeviceId.isSome
      && !(devices.any (fun d => some d.deviceId == t1._realDeviceId)) then
    { t1 with _trackEnded := true }
  else
    t1

end JitsiLocalTrack

open JitsiLocalTrack

/-- The `type` tag passed with add/remove stream requests
(`type: "mute"` / `type: "unmute"` in the source). -/
inductive OpTag
  | muteTag
  | unmuteTag
deriving DecidableEq, Repr

/-- Observable side effects of a mute/unmute transition, in the order the
code performs them.  Acquisition parameters (device id, facing mode,
resolution) are outside the scope of the analysed claims and are not
recorded. -/
inductive Effect
  | removeStreamFromConference (mtype : MediaType) (tag : OpTag)
  | stopMediaStream (sid : Nat)
  | obtainStream
  | attachContainers
  | addStreamToConference (mtype : MediaType) (tag : OpTag)
  | setAudioMute (b : Bool)
  | setVideoMute (b : Bool)
  | emitMuteChanged
deriving DecidableEq, Repr

/-- Effects that tear down or renegotiate the native stream
(`conference.room.removeStream` and `RTCUtils.stopMediaStream`). -/
def Effect.isTeardown : Effect → Bool
  | Effect.removeStreamFromConference _ _ => true
  | Effect.stopMediaStream _ => true
  | _ => false

/-- Effects notifying the conference of the new mute state
(`room.setAudioMute` / `room.setVideoMute`). -/
def Effect.isMuteStatus : Effect → Bool
  | Effect.setAudioMute _ => true
  | Effect.setVideoMute _ => true
  | _ => false

/-- The `TRACK_MUTE_CHANGED` emission. -/
def Effect.isEmitMuteChanged : Effect → Bool
  | Effect.emitMuteChanged => true
  | _ => false

/-- One entry of the `streamsInfo` array returned by
`RTCUtils.obtainAudioAndVideoPermissions`. -/
structure StreamInfo where
  mediaType : MediaType
  videoType : Option VideoType
  stream : NativeStream
  track : NativeTrack
deriving DecidableEq, Repr

/-- Outcomes of the asynchronous collaborators consulted during one
mute/unmute transition: `conference.room.removeStream`,
`RTCUtils.obtainAudioAndVideoPermissions` and
`conference.room.addStream`. -/
structure MuteEnv where
  removeStreamResult : Except JitsiTrackError Unit
  obtainResult : Except JitsiTrackError (List StreamInfo)
  addStreamResult : Except JitsiTrackError Unit
deriving DecidableEq, Repr

/-- Platform facts read by `_setMute`:
`window.location.protocol === "https:"` and
`RTCBrowserType.isFirefox()`. -/
structure Platform where
  httpsProtocol : Bool
  isFirefox : Bool
deriving DecidableEq, Repr

/-- Result of a settled transition: final track state, trace of side
effects, and the settled promise value. -/
structure MuteResult where
  state : JitsiLocalTrack
  effects : List Effect
  result : Except JitsiTrackError Unit
deriving DecidableEq, Repr

namespace JitsiLocalTrack

/-- The branch condition at source lines 193-196: configurations for which
muting only toggles the native track's enabled flag — non-https page,
audio track, desktop-share video, or Firefox. -/
def useEnabledFlagMute (p : Platform) (t : JitsiLocalTrack) : Bool :=
  !p.httpsProtocol || isAudioTrack t
    || t.videoType == some VideoType.desktop || p.isFirefox

/-- `_removeStreamFromConferenceAsMute` (source lines 294-312): resolves
immediately for an unbound track; otherwise issues
`room.removeStream(stream, …, {mtype, type: "mute", ssrc})`, whose outcome
the environment supplies. -/
def _removeStreamFromConferenceAsMute (env : MuteEnv) (t : JitsiLocalTrack) :
    List Effect × Except JitsiTrackError Unit :=
  if !(hasRoom t) then
    ([], Except.ok ())
  else
    ([Effect.removeStreamFromConference (getType t) OpTag.muteTag],
      env.removeStreamResult)

/-- `_addStreamToConferenceAsUnmute` (source lines 267-286): resolves
immediately for an unbound track; otherwise issues
`room.addStream(stream, …, {mtype, type: "unmute", ssrc, msid})`. -/
def _addStreamToConferenceAsUnmute (env : MuteEnv) (t : JitsiLocalTrack) :
    List Effect × Except JitsiTrackError Unit :=
  if !(hasRoom t) then
    ([], Except.ok ())
  else
    ([Effect.addStreamToConference (getType t) OpTag.unmuteTag],
      env.addStreamResult)

/-- `_sendMuteStatus` (source lines 321-334): nothing for an unbound
track; otherwise `room.setAudioMute(mute)` for audio and
`room.setVideoMute(mute)` for video.  The room only ever resolves this
request, so no failure outcome exists. -/
def _sendMuteStatus (t : JitsiLocalTrack) (mute : Bool) : List Effect :=
  if !(hasRoom t) then
    []
  else
    [if isAudioTrack t then Effect.setAudioMute mute
     else Effect.setVideoMute mute]

/-- The common tail of `_setMute` (source lines 252-258): once the branch
promise succeeds, send the mute status to the conference, then emit
`TRACK_MUTE_CHANGED`. -/
def finishSetMute (t : JitsiLocalTrack) (mute : Bool)
    (effs : List Effect) : MuteResult :=
  { state := t
    effects := effs ++ _sendMuteStatus t mute ++ [Effect.emitMuteChanged]
    result := Except.ok () }

/-- `JitsiLocalTrack.prototype._setMute` (source lines 175-259) run to
settlement.  A failing asynchronous step skips the rest of the promise
chain and settles with its fault; the partial state mutations already
performed are kept (no rollback). -/
def _setMute (p : Platform) (env : MuteEnv) (t : JitsiLocalTrack)
    (mute : Bool) : MuteResult :=
  if isMuted t == mute then
    { state := t, effects := [], result := Except.ok () }
  else
    let t1 := if !(hasRoom t) then { t with startMuted := mute } else t
    let t2 := { t1 with dontFireRemoveEvent := false }
    if useEnabledFlagMute p t2 then
      let t3 :=
        match t2.track with
        | some nt => { t2 with track := some { nt with enabled := !mute } }
        | none => t2
      finishSetMute t3 mute []
    else if mute then
      let t3 := { t2 with dontFireRemoveEvent := true }
      match _removeStreamFromConferenceAsMute env t3 with
      | (effs, Except.error e) =>
        { state := t3, effects := effs, result := Except.error e }
      | (effs, Except.ok _) =>
        let stopEffs :=
          match t3.stream with
          | some s => [Effect.stopMediaStream s.id]
          | none => []
        finishSetMute { t3 with stream := none } mute (effs ++ stopEffs)
    else
      match env.obtainResult with
      | Except.error e =>
        { state := t2, effects := [Effect.obtainStream],
          result := Except.error e }
      | Except.ok streamsInfo =>
        match streamsInfo.find? (fun info => info.mediaType == getType t2) with
        | none =>
          { state := t2, effects := [Effect.obtainStream],
            result := Except.error JitsiTrackError.trackNoStreamFound }
        | some info =>
          let t3 := { t2 with stream := some info.stream,
                              track := some info.track,
                              videoType := info.videoType }
          match _addStreamToConferenceAsUnmute env t3 with
          | (effs, Except.error e) =>
            { state := t3,
              effects := [Effect.obtainStream, Effect.attachContainers]
                ++ effs,
              result := Except.error e }
          | (effs, Except.ok _) =>
            finishSetMute t3 mute
              ([Effect.obtainStream, Effect.attachContainers] ++ effs)

/-- Synchronous portion of `createMuteUnmutePromise` (source lines
148-156): reject when a transition is already in flight; otherwise set
the `inMuteOrUnmuteProgress` guard.  The promise handlers clearing the
guard always run in a later microtask (`muteUnmuteComplete`). -/
def muteUnmuteStart (t : JitsiLocalTrack) :
    Except JitsiTrackError JitsiLocalTrack :=
  if t.inMuteOrUnmuteProgress then
    Except.error JitsiTrackError.trackMuteUnmuteInProgress
  else
    Except.ok { t with inMuteOrUnmuteProgress := true }

/-- Asynchronous remainder of `createMuteUnmutePromise` (source lines
157-164): run `_setMute` and clear the guard on success and on failure,
re-throwing the original fault. -/
def muteUnmuteComplete (p : Platform) (env : MuteEnv) (t : JitsiLocalTrack)
    (mute : Bool) : MuteResult :=
  let r := _setMute p env t mute
  { state := { r.state with inMuteOrUnmuteProgress := false }
    effects := r.effects
    result := r.result }

/-- `createMuteUnmutePromise` (source lines 148-165) run to settlement:
the synchronous acceptance followed by the asynchronous completion. -/
def createMuteUnmutePromise (p : Platform) (env : MuteEnv)
    (t : JitsiLocalTrack) (mute : Bool) : MuteResult :=
  match muteUnmuteStart t with
  | Except.error e => { state := t, effects := [], result := Except.error e }
  | Except.ok t1 => muteUnmuteComplete p env t1 mute

/-- `mute()` (source lines 128-130) run to settlement. -/
def mute (p : Platform) (env : MuteEnv) (t : JitsiLocalTrack) : MuteResult :=
  createMuteUnmutePromise p env t true

/-- `unmute()` (source lines 137-139) run to settlement. -/
def unmute (p : Platform) (env : MuteEnv) (t : JitsiLocalTrack) : MuteResult :=
  createMuteUnmutePromise p env t false

/-- Observable steps of `dispose` (source lines 345-370), in order. -/
inductive DisposeEvent
  | removeTrackRequested
  | stopMediaStream (sid : Nat)
  | detach
  | removeDeviceListChangedListener
  | removeAudioOutputChangedListener
  | removeTrackCompleted
  | baseDispose
deriving DecidableEq, Repr

/-- `JitsiLocalTrack.prototype.dispose` as its trace of observable steps.
`removeTrackCompleted` marks the settlement of the promise returned by
`conference.removeTrack`, which is observed no earlier than the end of
the synchronous body; the base-class dispose runs in its `.then`. -/
def dispose (t : JitsiLocalTrack) : List DisposeEvent :=
  (if t.conference.isSome then [DisposeEvent.removeTrackRequested] else [])
  ++ (match t.stream with
      | some s => [DisposeEvent.stopMediaStream s.id, DisposeEvent.detach]
      | none => [])
  ++ [DisposeEvent.removeDeviceListChangedListener]
  ++ (if t.hasAudioOutputChangedHandler then
        [DisposeEvent.removeAudioOutputChangedListener]
      else [])
  ++ (if t.conference.isSome then [DisposeEvent.removeTrackCompleted] else [])
  ++ [DisposeEvent.baseDispose]

end JitsiLocalTrack

/-- Scheduler state for the guard protocol: the track plus the list of
transitions accepted but not yet completed (the targets handed to
`_setMute`). -/
structure Sys where
  track : JitsiLocalTrack
  inFlight : List Bool
deriving DecidableEq, Repr

/-- One external stimulus: a `mute()`/`unmute()` call, or the delivery of
the in-flight transition's asynchronous completion with the given
collaborator outcomes. -/
inductive SysOp
  | call (m : Bool)
  | complete (env : MuteEnv)

/-- A `mute()`/`unmute()` call against the scheduler: the synchronous
guard check of `createMuteUnmutePromise` (source lines 148-156). -/
def sysCall (s : Sys) (m : Bool) : Sys × Except JitsiTrackError Unit :=
  if s.track.inMuteOrUnmuteProgress then
    (s, Except.error JitsiTrackError.trackMuteUnmuteInProgress)
  else
    ({ track := { s.track with inMuteOrUnmuteProgress := true },
       inFlight := s.inFlight ++ [m] },
      Except.ok ())

/-- Delivery of the asynchronous completion of the oldest accepted
transition: runs `_setMute` and clears the guard on success and failure,
handing the settled value (the original fault on failure) back to the
caller (source lines 157-164). -/
def sysComplete (p : Platform) (env : MuteEnv) (s : Sys) :
    Sys × List Effect × Option (Except JitsiTrackError Unit) :=
  match s.inFlight with
  | [] => (s, [], none)
  | m :: rest =>
    let r := JitsiLocalTrack._setMute p env s.track m
    ({ track := { r.state with inMuteOrUnmuteProgress := false },
       inFlight := rest },
      r.effects, some r.result)

/-- One scheduler step. -/
def sysStep (p : Platform) (s : Sys) : SysOp → Sys
  | SysOp.call m => (sysCall s m).1
  | SysOp.complete env => (sysComplete p env s).1

/-- Run a sequence of calls and completions. -/
def sysRun (p : Platform) (s : Sys) : List SysOp → Sys
  | [] => s
  | op :: ops => sysRun p (sysStep p s op) ops

/-- Guard invariant: at most one accepted transition is pending, and the
`inMuteOrUnmuteProgress` flag is set exactly while one is. -/
def GoodSys (s : Sys) : Prop :=
  s.inFlight.length ≤ 1 ∧ s.track.inMuteOrUnmuteProgress = !s.inFlight.isEmpty

/-- A live, enabled native microphone track used in witnesses. -/
def micNative : NativeTrack :=
  { enabled := true
    readyState := some ("live")
    label := "mic A"
    kind := "audio" }

/-- A live, enabled native camera track used in witnesses. -/
def camNative : NativeTrack :=
  { enabled := true
    readyState := some ("live")
    label := "cam A"
    kind := "video" }

/-- A stream-less audio track used as a concrete witness input. -/
def nullStreamTrack : JitsiLocalTrack :=
  { mediaType := MediaType.audio
    videoType := none
    stream := none
    track := some micNative
    resolution := none
    deviceId := ""
    _realDeviceId := none
    _facingMode := none
    _trackEnded := false
    inMuteOrUnmuteProgress := false
    startMuted := false
    dontFireRemoveEvent := false
    conference := none
    hasAudioOutputChangedHandler := false }

/-- A camera video track whose stream is inactive but whose native track
is enabled. -/
def inactiveVideoTrack : JitsiLocalTrack :=
  { mediaType := MediaType.video
    videoType := some VideoType.camera
    stream := some { id := 4, active := false }
    track := some camNative
    resolution := some 720
    deviceId := ""
    _realDeviceId := none
    _facingMode := none
    _trackEnded := false
    inMuteOrUnmuteProgress := false
    startMuted := false
    dontFireRemoveEvent := false
    conference := none
    hasAudioOutputChangedHandler := false }

/-- A track with an already-resolved real device id. -/
def resolvedTrack : JitsiLocalTrack :=
  { nullStreamTrack with _realDeviceId := some ("mic-id-1") }

/-- A secure-context Chrome-like platform (teardown-capable). -/
def chromeHttps : Platform :=
  { httpsProtocol := true, isFirefox := false }

/-- An environment in which every collaborator request succeeds and
re-acquisition returns no streams. -/
def anyEnv : MuteEnv :=
  { removeStreamResult := Except.ok ()
    obtainResult := Except.ok []
    addStreamResult := Except.ok () }

/-- A scheduler state with one accepted transition in flight. -/
def busySys : Sys :=
  { track := { nullStreamTrack with inMuteOrUnmuteProgress := true }
    inFlight := [true] }

/-- A stimulus sequence: deliver the pending completion, then a call. -/
def busyOps : List SysOp :=
  [SysOp.complete anyEnv, SysOp.call false]

/-- `nullStreamTrack` right after a no-op `mute()` was accepted (guard
set, nothing else changed). -/
def noopBusyTrack : JitsiLocalTrack :=
  { nullStreamTrack with inMuteOrUnmuteProgress := true }

/-- A camera track bound to a conference with a room, owning an active
stream. -/
def boundStreamTrack : JitsiLocalTrack :=
  { mediaType := MediaType.video
    videoType := some VideoType.camera
    stream := some { id := 7, active := true }
    track := some camNative
    resolution := some 720
    deviceId := ""
    _realDeviceId := none
    _facingMode := none
    _trackEnded := false
    inMuteOrUnmuteProgress := false
    startMuted := false
    dontFireRemoveEvent := false
    conference := some { hasRoom := true }
    hasAudioOutputChangedHandler := false }

/-- A device-list entry matching `resolvedTrack`'s native track. -/
def matchingDevice : DeviceInfo :=
  { deviceId := "mic-id-2", label := "mic A", kind := "audioinput" }

/-- An audio track with an active stream, bound to a conference with a
room, with output-device change support. -/
def audioStreamTrack : JitsiLocalTrack :=
  { mediaType := MediaType.audio
    videoType := none
    stream := some { id := 3, active := true }
    track := some micNative
    resolution := none
    deviceId := ""
    _realDeviceId := none
    _facingMode := none
    _trackEnded := false
    inMuteOrUnmuteProgress := false
    startMuted := false
    dontFireRemoveEvent := false
    conference := some { hasRoom := true }
    hasAudioOutputChangedHandler := true }

/-- A native camera track whose ready state reports ended. -/
def endedNative : NativeTrack :=
  { enabled := true
    readyState := some ("ended")
    label := "cam A"
    kind := "video" }

/-- A camera track muted via stream teardown (stream null) whose retained
native track reports an ended ready state. -/
def endedMutedTrack : JitsiLocalTrack :=
  { mediaType := MediaType.video
    videoType := some VideoType.camera
    stream := none
    track := some endedNative
    resolution := some 720
    deviceId := ""
    _realDeviceId := none
    _facingMode := none
    _trackEnded := false
    inMuteOrUnmuteProgress := false
    startMuted := false
    dontFireRemoveEvent := false
    conference := none
    hasAudioOutputChangedHandler := false }

/-- A fresh camera acquisition result with a live native track. -/
def freshInfo : StreamInfo :=
  { mediaType := MediaType.video
    videoType := some VideoType.camera
    stream := { id := 9, active := true }
    track := camNative }

/-- An environment whose re-acquisition yields the fresh camera stream. -/
def reacquireEnv : MuteEnv :=
  { removeStreamResult := Except.ok ()
    obtainResult := Except.ok [freshInfo]
    addStreamResult := Except.ok () }

/-- A stream-less camera track (muted under the teardown policy). -/
def mutedCameraTrack : JitsiLocalTrack :=
  { endedMutedTrack with track := some camNative }

/-- A track whose device-disappearance flag has been set. -/
def endedFlagTrack : JitsiLocalTrack :=
  { nullStreamTrack with _trackEnded := true }

/-!  ## Theorems  -/

/-- C7 — `isMuted()` returns true whenever the native stream is null,
regardless of the native track's enabled flag (source line 380:
`if (!this.stream) return true`). -/
theorem isMuted_of_null_stream (t : JitsiLocalTrack)
    (h : t.stream = none) : isMuted t = true := by
  simp [isMuted, h]

/-- Witness for C7 at a concrete stream-less track whose native track is
enabled. -/
theorem isMuted_of_null_stream_witness :
    nullStreamTrack.stream = none ∧ isMuted nullStreamTrack = true :=
  ⟨by decide, isMuted_of_null_stream nullStreamTrack (by decide)⟩

/-- C10 — for a video track whose native stream exists but is not active,
`isMuted()` returns true even when the native track is enabled: the
enabled flag is only consulted when the stream is active (source lines
382-383). -/
theorem isMuted_inactive_video (t : JitsiLocalTrack) (s : NativeStream)
    (hs : t.stream = some s) (ha : s.active = false)
    (hv : t.mediaType = MediaType.video) : isMuted t = true := by
  simp [isMuted, isVideoTrack, isActive, hs, ha, hv]

/-- Witness for C10: the concrete inactive-stream video track reports
muted although its native track is enabled. -/
theorem isMuted_inactive_video_witness :
    inactiveVideoTrack.stream = some { id := 4, active := false } ∧
    ({ id := 4, active := false } : NativeStream).active = false ∧
    inactiveVideoTrack.mediaType = MediaType.video ∧
    isMuted inactiveVideoTrack = true :=
  ⟨by decide, by decide, by decide,
    isMuted_inactive_video inactiveVideoTrack { id := 4, active := false }
      (by decide) (by decide) (by decide)⟩

/-- C8 — device-identity resolution: once `_realDeviceId` holds a concrete
id, a device list with no entry matching the native track's kind and
label leaves it unchanged, and a matching entry's device id is adopted
(source lines 112-121). -/
theorem realDeviceId_resolution (t : JitsiLocalTrack) (nt : NativeTrack)
    (devices : List DeviceInfo) (id : String) (d : DeviceInfo)
    (ht : t.track = some nt) (hid : t._realDeviceId = some id) :
    (devices.find? (deviceMatches nt) = none →
      (_setRealDeviceIdFromDeviceList t devices)._realDeviceId = some id) ∧
    (devices.find? (deviceMatches nt) = some d →
      (_setRealDeviceIdFromDeviceList t devices)._realDeviceId
        = some d.deviceId) := by
  constructor
  · intro hnone
    simp [_setRealDeviceIdFromDeviceList, ht, hnone, hid]
  · intro hsome
    simp [_setRealDeviceIdFromDeviceList, ht, hsome]

/-- Witness for C8 at a concrete resolved track and a device list whose
single entry matches the track's kind and label. -/
theorem realDeviceId_resolution_witness :
    resolvedTrack.track = some micNative ∧
    resolvedTrack._realDeviceId = some ("mic-id-1") ∧
    (([matchingDevice].find? (deviceMatches micNative) = none →
      (_setRealDeviceIdFromDeviceList resolvedTrack
        [matchingDevice])._realDeviceId = some ("mic-id-1")) ∧
    ([matchingDevice].find? (deviceMatches micNative) = some matchingDevice →
      (_setRealDeviceIdFromDeviceList resolvedTrack
        [matchingDevice])._realDeviceId = some matchingDevice.deviceId)) :=
  ⟨by decide, by decide,
    realDeviceId_resolution resolvedTrack micNative
      [matchingDevice] "mic-id-1" matchingDevice (by decide) (by decide)⟩

/-- A `mute()`/`unmute()` call preserves the guard invariant. -/
theorem goodSys_sysCall (s : Sys) (m : Bool) (h : GoodSys s) :
    GoodSys (sysCall s m).1 := by
  obtain ⟨h1, h2⟩ := h
  unfold sysCall
  by_cases hg : s.track.inMuteOrUnmuteProgress = true
  · simpa [hg] using ⟨h1, h2⟩
  · have hg' : s.track.inMuteOrUnmuteProgress = false := by
      cases hb : s.track.inMuteOrUnmuteProgress
      · rfl
      · exact absurd hb hg
    have he : s.inFlight = [] := by
      rw [hg'] at h2
      cases hf : s.inFlight with
      | nil => rfl
      | cons a l => rw [hf] at h2; simp at h2
    simp [hg', he, GoodSys]

/-- Delivering a completion preserves the guard invariant. -/
theorem goodSys_sysComplete (p : Platform) (env : MuteEnv) (s : Sys)
    (h : GoodSys s) : GoodSys (sysComplete p env s).1 := by
  obtain ⟨h1, h2⟩ := h
  unfold sysComplete
  cases hf : s.inFlight with
  | nil =>
    have h2' : s.track.inMuteOrUnmuteProgress = false := by rw [h2, hf]; rfl
    simp [GoodSys, hf, h2']
  | cons m rest =>
    have hr : rest = [] := by
      rw [hf] at h1
      simpa using h1
    simp [hr, GoodSys]

/-- A single scheduler step preserves the guard invariant. -/
theorem goodSys_sysStep (p : Platform) (s : Sys) (op : SysOp)
    (h : GoodSys s) : GoodSys (sysStep p s op) := by
  cases op with
  | call m => exact goodSys_sysCall s m h
  | complete env => exact goodSys_sysComplete p env s h

/-- Every call/completion sequence preserves the guard invariant. -/
theorem goodSys_sysRun (p : Platform) (s : Sys) (ops : List SysOp)
    (h : GoodSys s) : GoodSys (sysRun p s ops) := by
  induction ops generalizing s with
  | nil => simpa [sysRun] using h
  | cons op ops ih => exact ih _ (goodSys_sysStep p s op h)

/-- C1 — for every sequence of `mute()`/`unmute()` calls and completions,
at most one transition is ever in flight (the guard invariant is
preserved); a call issued while one is in flight fails immediately with
`TRACK_MUTE_UNMUTE_IN_PROGRESS` and leaves the scheduler state — hence
the in-flight transition — untouched; and delivering the completion
clears the guard on success and failure alike, settling with `_setMute`'s
own outcome, so a failure re-raises the original fault to the caller
(source lines 148-165). -/
theorem mute_unmute_single_transition (p : Platform) (s : Sys)
    (ops : List SysOp) (m : Bool) (env : MuteEnv) (rest : List Bool)
    (h : GoodSys s) :
    GoodSys (sysRun p s ops) ∧
    (sysRun p s ops).inFlight.length ≤ 1 ∧
    (s.track.inMuteOrUnmuteProgress = true →
      sysCall s m
        = (s, Except.error JitsiTrackError.trackMuteUnmuteInProgress)) ∧
    (s.inFlight = m :: rest →
      (sysComplete p env s).1.track.inMuteOrUnmuteProgress = false ∧
      (sysComplete p env s).2.2
        = some (_setMute p env s.track m).result) := by
  refine ⟨goodSys_sysRun p s ops h, (goodSys_sysRun p s ops h).1, ?_, ?_⟩
  · intro hg
    simp [sysCall, hg]
  · intro hf
    simp [sysComplete, hf]

/-- Witness for C1 at a concrete busy scheduler state: the pending
completion is delivered, a concurrent call is rejected, and the guard
clears. -/
theorem mute_unmute_single_transition_witness :
    GoodSys busySys ∧
    (GoodSys (sysRun chromeHttps busySys busyOps) ∧
     (sysRun chromeHttps busySys busyOps).inFlight.length ≤ 1 ∧
     (busySys.track.inMuteOrUnmuteProgress = true →
       sysCall busySys true
         = (busySys, Except.error JitsiTrackError.trackMuteUnmuteInProgress)) ∧
     (busySys.inFlight = true :: [] →
       (sysComplete chromeHttps anyEnv busySys).1.track.inMuteOrUnmuteProgress
         = false ∧
       (sysComplete chromeHttps anyEnv busySys).2.2
         = some (_setMute chromeHttps anyEnv busySys.track true).result)) :=
  ⟨⟨by decide, by decide⟩,
    mute_unmute_single_transition chromeHttps busySys busyOps true anyEnv []
      ⟨by decide, by decide⟩⟩

/-- C2 (counterexample) — the claim says a no-op `mute()` on an
already-muted track does not acquire the transition guard; in the code
`inMuteOrUnmuteProgress` is set before `_setMute`'s no-op check and is
cleared only in a later microtask, so after the synchronous part of a
no-op `mute()` the guard is observably held: a second call issued in the
same tick is rejected with `TRACK_MUTE_UNMUTE_IN_PROGRESS`. -/
theorem noop_mute_acquires_guard_cex :
    isMuted nullStreamTrack = true ∧
    nullStreamTrack.inMuteOrUnmuteProgress = false ∧
    muteUnmuteStart nullStreamTrack = Except.ok noopBusyTrack ∧
    noopBusyTrack.inMuteOrUnmuteProgress = true ∧
    muteUnmuteStart noopBusyTrack
      = Except.error JitsiTrackError.trackMuteUnmuteInProgress := by
  refine ⟨by decide, by decide, by decide, by decide, by decide⟩

/-- `isMuted` ignores the transition guard flag. -/
theorem isMuted_set_guard (t : JitsiLocalTrack) (b : Bool) :
    isMuted { t with inMuteOrUnmuteProgress := b } = isMuted t := rfl

/-- C2 (amended) — a `mute()`/`unmute()` call whose target equals the
current derived mute state is accepted, acquires the transition guard,
and settles as a no-op: it reports success, performs no side effect (no
teardown, no re-acquisition, no mute-changed emission), and leaves the
track in its original state with the guard cleared again. -/
theorem noop_mute_unmute (p : Platform) (env : MuteEnv)
    (t : JitsiLocalTrack) (m : Bool)
    (hg : t.inMuteOrUnmuteProgress = false) (hm : isMuted t = m) :
    muteUnmuteStart t
      = Except.ok { t with inMuteOrUnmuteProgress := true } ∧
    (createMuteUnmutePromise p env t m).result = Except.ok () ∧
    (createMuteUnmutePromise p env t m).effects = [] ∧
    (createMuteUnmutePromise p env t m).state = t := by
  have hstart : muteUnmuteStart t
      = Except.ok { t with inMuteOrUnmuteProgress := true } := by
    simp [muteUnmuteStart, hg]
  have hmut : isMuted { t with inMuteOrUnmuteProgress := true } = m := by
    rw [isMuted_set_guard]; exact hm
  have hset : _setMute p env { t with inMuteOrUnmuteProgress := true } m
      = { state := { t with inMuteOrUnmuteProgress := true },
          effects := [], result := Except.ok () } := by
    simp [_setMute, hmut]
  refine ⟨hstart, ?_, ?_, ?_⟩
  · simp [createMuteUnmutePromise, hstart, muteUnmuteComplete, hset]
  · simp [createMuteUnmutePromise, hstart, muteUnmuteComplete, hset]
  · simp [createMuteUnmutePromise, hstart, muteUnmuteComplete, hset]
    rw [← hg]

/-- Witness for C2's amended statement at a concrete already-muted
track. -/
theorem noop_mute_unmute_witness :
    nullStreamTrack.inMuteOrUnmuteProgress = false ∧
    isMuted nullStreamTrack = true ∧
    (muteUnmuteStart nullStreamTrack
      = Except.ok { nullStreamTrack with inMuteOrUnmuteProgress := true } ∧
    (createMuteUnmutePromise chromeHttps anyEnv nullStreamTrack true).result
      = Except.ok () ∧
    (createMuteUnmutePromise chromeHttps anyEnv nullStreamTrack true).effects
      = [] ∧
    (createMuteUnmutePromise chromeHttps anyEnv nullStreamTrack true).state
      = nullStreamTrack) :=
  ⟨by decide, by decide,
    noop_mute_unmute chromeHttps anyEnv nullStreamTrack true
      (by decide) (by decide)⟩

/-- C3 (counterexample) — `dispose` does not await the completion of
`conference.removeTrack` before releasing the stream: in the trace of a
bound, stream-owning track the stream release (index 1) precedes the
settlement of the removal request (index 4). -/
theorem dispose_release_before_removal_cex :
    dispose boundStreamTrack =
      [DisposeEvent.removeTrackRequested, DisposeEvent.stopMediaStream 7,
       DisposeEvent.detach, DisposeEvent.removeDeviceListChangedListener,
       DisposeEvent.removeTrackCompleted, DisposeEvent.baseDispose] ∧
    (dispose boundStreamTrack).findIdx
        (fun e => e == DisposeEvent.stopMediaStream 7) = 1 ∧
    (dispose boundStreamTrack).findIdx
        (fun e => e == DisposeEvent.removeTrackCompleted) = 4 := by
  refine ⟨by decide, by decide, by decide⟩

/-- C3 (amended) — on dispose of a track bound to a conference and owning
a native stream: removal from the conference is requested first, then the
stream is released and detached immediately, without awaiting the
removal's completion; listeners are unregistered, and only the base-class
teardown runs after the removal request settles (source lines 345-370). -/
theorem dispose_order (t : JitsiLocalTrack) (s : NativeStream)
    (hc : t.conference.isSome = true) (hs : t.stream = some s) :
    dispose t =
      [DisposeEvent.removeTrackRequested, DisposeEvent.stopMediaStream s.id,
       DisposeEvent.detach, DisposeEvent.removeDeviceListChangedListener]
      ++ (if t.hasAudioOutputChangedHandler then
            [DisposeEvent.removeAudioOutputChangedListener]
          else [])
      ++ [DisposeEvent.removeTrackCompleted, DisposeEvent.baseDispose] := by
  cases hx : t.hasAudioOutputChangedHandler <;> simp [dispose, hc, hs, hx]

/-- Witness for C3's amended statement at the concrete bound track. -/
theorem dispose_order_witness :
    boundStreamTrack.conference.isSome = true ∧
    boundStreamTrack.stream = some { id := 7, active := true } ∧
    dispose boundStreamTrack =
      [DisposeEvent.removeTrackRequested,
       DisposeEvent.stopMediaStream (7 : Nat),
       DisposeEvent.detach, DisposeEvent.removeDeviceListChangedListener]
      ++ (if boundStreamTrack.hasAudioOutputChangedHandler then
            [DisposeEvent.removeAudioOutputChangedListener]
          else [])
      ++ [DisposeEvent.removeTrackCompleted, DisposeEvent.baseDispose] :=
  ⟨by decide, by decide,
    dispose_order boundStreamTrack { id := 7, active := true }
      (by decide) (by decide)⟩

/-- C4 — when the local-disablement policy applies (non-secure context,
audio track, desktop-share video, or Firefox), an effective `mute()` only
flips the native track's enabled flag: the native stream is kept, no
stream-teardown effect is issued — in particular
`conference.room.removeStream` is never called — and the transition
succeeds (source lines 192-199). -/
theorem mute_local_disable (p : Platform) (env : MuteEnv)
    (t : JitsiLocalTrack) (nt : NativeTrack)
    (hpol : useEnabledFlagMute p t = true)
    (hm : isMuted t = false) (ht : t.track = some nt) :
    (_setMute p env t true).state.stream = t.stream ∧
    (_setMute p env t true).state.track = some { nt with enabled := false } ∧
    (_setMute p env t true).effects.all (fun e => !e.isTeardown) = true ∧
    (_setMute p env t true).result = Except.ok () := by
  cases hc : t.conference with
  | none =>
    cases hmt : t.mediaType <;>
      simp_all [_setMute, useEnabledFlagMute, isAudioTrack, hasRoom,
        getType, finishSetMute, _sendMuteStatus, Effect.isTeardown]
  | some conf =>
    cases conf with
    | mk hr =>
      cases hr <;> cases hmt : t.mediaType <;>
        simp_all [_setMute, useEnabledFlagMute, isAudioTrack, hasRoom,
          getType, finishSetMute, _sendMuteStatus, Effect.isTeardown]

/-- Effects recorded by a `removeStream` request carry no mute-status or
emission entries. -/
theorem removeAsMute_clean (env : MuteEnv) (t : JitsiLocalTrack) :
    (_removeStreamFromConferenceAsMute env t).1.all
      (fun e => !e.isEmitMuteChanged && !e.isMuteStatus) = true := by
  unfold _removeStreamFromConferenceAsMute
  split <;> simp [Effect.isEmitMuteChanged, Effect.isMuteStatus]

/-- Effects recorded by an `addStream` request carry no mute-status or
emission entries. -/
theorem addAsUnmute_clean (env : MuteEnv) (t : JitsiLocalTrack) :
    (_addStreamToConferenceAsUnmute env t).1.all
      (fun e => !e.isEmitMuteChanged && !e.isMuteStatus) = true := by
  unfold _addStreamToConferenceAsUnmute
  split <;> simp [Effect.isEmitMuteChanged, Effect.isMuteStatus]

set_option maxHeartbeats 3200000 in
/-- Case analysis of `_setMute`: it preserves the ended flag, the
conference binding and the media type, and it either no-ops, or reaches
the common status-then-emit tail with an effect prefix free of status and
emission entries, or fails. -/
theorem setMute_cases (p : Platform) (env : MuteEnv) (t : JitsiLocalTrack)
    (m : Bool) :
    (_setMute p env t m).state._trackEnded = t._trackEnded ∧
    (_setMute p env t m).state.conference = t.conference ∧
    (_setMute p env t m).state.mediaType = t.mediaType ∧
    (((isMuted t == m) = true ∧
        _setMute p env t m
          = { state := t, effects := [], result := Except.ok () }) ∨
      (∃ st effs, _setMute p env t m = finishSetMute st m effs ∧
        effs.all (fun e => !e.isEmitMuteChanged && !e.isMuteStatus) = true) ∨
      (∃ err, (_setMute p env t m).result = Except.error err)) := by
  obtain ⟨mt, vt, st, tr, res, did, rid, fm, te, g, sm, df, c, ha⟩ := t
  obtain ⟨er, eo, ea⟩ := env
  rcases c with _ | ⟨_ | _⟩ <;> rcases er with e1 | ⟨⟩ <;>
    rcases ea with e3 | ⟨⟩ <;> rcases eo with e2 | infos
  all_goals (
    simp only [_setMute, _removeStreamFromConferenceAsMute,
      _addStreamToConferenceAsUnmute, hasRoom, Bool.not_false, Bool.not_true,
      Bool.false_eq_true, if_false, if_true, ite_true, ite_false]
    try dsimp only
    split
    · rename_i hnoop
      exact ⟨rfl, rfl, rfl, Or.inl ⟨hnoop, rfl⟩⟩
    · repeat' split
      all_goals
        first
        | exact ⟨rfl, rfl, rfl, Or.inr (Or.inr ⟨_, rfl⟩)⟩
        | (refine ⟨rfl, rfl, rfl, Or.inr (Or.inl ⟨_, _, rfl, ?_⟩)⟩
           simp [Effect.isEmitMuteChanged, Effect.isMuteStatus]))

/-- Witness for C4 at a concrete bound audio track with an active
stream. -/
theorem mute_local_disable_witness :
    useEnabledFlagMute chromeHttps audioStreamTrack = true ∧
    isMuted audioStreamTrack = false ∧
    audioStreamTrack.track = some micNative ∧
    ((_setMute chromeHttps anyEnv audioStreamTrack true).state.stream
        = audioStreamTrack.stream ∧
      (_setMute chromeHttps anyEnv audioStreamTrack true).state.track
        = some { micNative with enabled := false } ∧
      (_setMute chromeHttps anyEnv audioStreamTrack true).effects.all
        (fun e => !e.isTeardown) = true ∧
      (_setMute chromeHttps anyEnv audioStreamTrack true).result
        = Except.ok ()) :=
  ⟨by decide, by decide, by decide,
    mute_local_disable chromeHttps anyEnv audioStreamTrack micNative
      (by decide) (by decide) (by decide)⟩

/-- Shape of the common status-then-emit tail: on a clean prefix the
emission is unique and last, and the status notification — audio or video
channel by track kind — immediately precedes it when bound, and is absent
when unbound. -/
theorem finishSetMute_spec (st : JitsiLocalTrack) (m : Bool)
    (effs : List Effect)
    (hclean : effs.all (fun e => !e.isEmitMuteChanged && !e.isMuteStatus)
      = true) :
    ((finishSetMute st m effs).effects.filter Effect.isEmitMuteChanged).length
      = 1 ∧
    (finishSetMute st m effs).effects.getLast? = some Effect.emitMuteChanged ∧
    (hasRoom st = true →
      (finishSetMute st m effs).effects.dropLast.getLast?
        = some (if isAudioTrack st then Effect.setAudioMute m
                else Effect.setVideoMute m)) ∧
    (hasRoom st = false →
      (finishSetMute st m effs).effects.all (fun e => !e.isMuteStatus)
        = true) := by
  have hemit : ∀ x ∈ effs, Effect.isEmitMuteChanged x = false := by
    intro x hx
    have h := List.all_eq_true.mp hclean x hx
    simp only [Bool.and_eq_true, Bool.not_eq_true'] at h
    exact h.1
  have hstat : ∀ x ∈ effs, Effect.isMuteStatus x = false := by
    intro x hx
    have h := List.all_eq_true.mp hclean x hx
    simp only [Bool.and_eq_true, Bool.not_eq_true'] at h
    exact h.2
  have hfe : effs.filter Effect.isEmitMuteChanged = [] :=
    List.filter_eq_nil_iff.mpr (fun x hx => by simp [hemit x hx])
  have hall : effs.all (fun e => !e.isMuteStatus) = true :=
    List.all_eq_true.mpr (fun x hx => by simp [hstat x hx])
  cases hroom : hasRoom st with
  | false =>
    refine ⟨?_, ?_, by simp [hroom], fun _ => ?_⟩ <;>
      simp [finishSetMute, _sendMuteStatus, hroom, List.filter_append, hfe,
        List.getLast?_append, List.all_append, hall,
        Effect.isEmitMuteChanged, Effect.isMuteStatus]
    exact fun x hx => hstat x hx
  | true =>
    cases haud : isAudioTrack st <;>
      refine ⟨?_, ?_, fun _ => ?_, by simp [hroom]⟩ <;>
        simp [finishSetMute, _sendMuteStatus, hroom, haud,
          List.filter_append, hfe, List.getLast?_append, List.all_append,
          Effect.isEmitMuteChanged, Effect.isMuteStatus]

/-- C5 — every successful effective mute/unmute transition emits
`TRACK_MUTE_CHANGED` exactly once, as its final step; when the track is
bound to a room, the mute-status notification — `setAudioMute` for audio
tracks, `setVideoMute` for video tracks — is sent immediately before the
emission, and when unbound no status notification occurs at all (source
lines 252-258 and 321-334). -/
theorem mute_status_before_emit (p : Platform) (env : MuteEnv)
    (t : JitsiLocalTrack) (m : Bool)
    (hm : isMuted t = !m)
    (hok : (_setMute p env t m).result = Except.ok ()) :
    ((_setMute p env t m).effects.filter Effect.isEmitMuteChanged).length
      = 1 ∧
    (_setMute p env t m).effects.getLast? = some Effect.emitMuteChanged ∧
    (hasRoom t = true →
      (_setMute p env t m).effects.dropLast.getLast?
        = some (if isAudioTrack t then Effect.setAudioMute m
                else Effect.setVideoMute m)) ∧
    (hasRoom t = false →
      (_setMute p env t m).effects.all (fun e => !e.isMuteStatus) = true) := by
  obtain ⟨hte, hconf, hmt, hcase⟩ := setMute_cases p env t m
  rcases hcase with ⟨hnoop, _⟩ | ⟨st, effs, heq, hclean⟩ | ⟨err, herr⟩
  · rw [hm] at hnoop
    cases m <;> simp at hnoop
  · have hroom : hasRoom st = hasRoom t := by
      rw [heq] at hconf
      simp only [finishSetMute] at hconf
      simp [hasRoom, hconf]
    have haud : isAudioTrack st = isAudioTrack t := by
      rw [heq] at hmt
      simp only [finishSetMute] at hmt
      simp [isAudioTrack, hmt]
    obtain ⟨h1, h2, h3, h4⟩ := finishSetMute_spec st m effs hclean
    rw [heq]
    refine ⟨h1, h2, ?_, ?_⟩
    · intro hr
      rw [← haud]
      exact h3 (hroom.trans hr)
    · intro hr
      exact h4 (hroom.trans hr)
  · rw [herr] at hok
    cases hok

/-- Witness for C5 at the concrete bound audio track, mute direction. -/
theorem mute_status_before_emit_witness :
    isMuted audioStreamTrack = !true ∧
    (_setMute chromeHttps anyEnv audioStreamTrack true).result
      = Except.ok () ∧
    (((_setMute chromeHttps anyEnv audioStreamTrack true).effects.filter
        Effect.isEmitMuteChanged).length = 1 ∧
      (_setMute chromeHttps anyEnv audioStreamTrack true).effects.getLast?
        = some Effect.emitMuteChanged ∧
      (hasRoom audioStreamTrack = true →
        (_setMute chromeHttps anyEnv audioStreamTrack
            true).effects.dropLast.getLast?
          = some (if isAudioTrack audioStreamTrack then
              Effect.setAudioMute true
            else Effect.setVideoMute true)) ∧
      (hasRoom audioStreamTrack = false →
        (_setMute chromeHttps anyEnv audioStreamTrack true).effects.all
          (fun e => !e.isMuteStatus) = true)) :=
  ⟨by decide, by decide,
    mute_status_before_emit chromeHttps anyEnv audioStreamTrack true
      (by decide) (by decide)⟩

/-- C6 — an `unmute()` under the stream-teardown policy whose
re-acquisition yields no entry of this track's media kind fails with
`TRACK_NO_STREAM_FOUND` and leaves the track stream-less (source lines
211-248). -/
theorem unmute_no_stream_found (p : Platform) (env : MuteEnv)
    (t : JitsiLocalTrack) (infos : List StreamInfo)
    (hpol : useEnabledFlagMute p t = false)
    (hs : t.stream = none)
    (hobtain : env.obtainResult = Except.ok infos)
    (hfind : infos.find? (fun info => info.mediaType == t.mediaType)
      = none) :
    (_setMute p env t false).result
      = Except.error JitsiTrackError.trackNoStreamFound ∧
    (_setMute p env t false).state.stream = none := by
  obtain ⟨mt, vt, st, tr, res, did, rid, fm, te, g, sm, df, c, ha⟩ := t
  obtain ⟨er, eo, ea⟩ := env
  dsimp only at hs hfind hobtain hpol ⊢
  subst hs
  subst hobtain
  simp only [useEnabledFlagMute, isAudioTrack] at hpol
  rcases c with _ | ⟨_ | _⟩ <;>
    simp [_setMute, useEnabledFlagMute, isAudioTrack, isMuted, hasRoom,
      getType, hpol, hfind]

/-- Witness for C6 at a concrete stream-less camera track whose
re-acquisition returns an empty stream set. -/
theorem unmute_no_stream_found_witness :
    useEnabledFlagMute chromeHttps mutedCameraTrack = false ∧
    mutedCameraTrack.stream = none ∧
    anyEnv.obtainResult = Except.ok ([] : List StreamInfo) ∧
    (([] : List StreamInfo).find?
      (fun info => info.mediaType == mutedCameraTrack.mediaType) = none) ∧
    ((_setMute chromeHttps anyEnv mutedCameraTrack false).result
        = Except.error JitsiTrackError.trackNoStreamFound ∧
      (_setMute chromeHttps anyEnv mutedCameraTrack false).state.stream
        = none) :=
  ⟨by decide, by decide, by decide, by decide,
    unmute_no_stream_found chromeHttps anyEnv mutedCameraTrack []
      (by decide) (by decide) (by decide) (by decide)⟩

/-- C9 (counterexample) — `isEnded()` can revert from true to false: a
muted camera track whose retained native track reports an ended ready
state is `isEnded`, yet a successful teardown-path `unmute()` replaces
the native track with a live one, after which `isEnded()` is false
again. -/
theorem isEnded_not_permanent_cex :
    isEnded endedMutedTrack = true ∧
    endedMutedTrack._trackEnded = false ∧
    (createMuteUnmutePromise chromeHttps reacquireEnv endedMutedTrack
      false).result = Except.ok () ∧
    isEnded (createMuteUnmutePromise chromeHttps reacquireEnv
      endedMutedTrack false).state = false := by
  refine ⟨by decide, by decide, by decide, by decide⟩

/-- C9 (amended) — the `_trackEnded` flag, once set, is never cleared by
any operation of this component, and while it is set `isEnded()` remains
true across device-list notifications and mute/unmute transitions;
permanence of `isEnded()` itself holds only in this flag-driven form,
since a teardown-path unmute replaces the native track and can reset the
ready-state half of the disjunction. -/
theorem trackEnded_permanent (p : Platform) (env : MuteEnv)
    (t : JitsiLocalTrack) (m : Bool) (devices : List DeviceInfo)
    (h : t._trackEnded = true) :
    isEnded t = true ∧
    (_setRealDeviceIdFromDeviceList t devices)._trackEnded = true ∧
    (_onDeviceListChanged t devices)._trackEnded = true ∧
    isEnded (_onDeviceListChanged t devices) = true ∧
    (createMuteUnmutePromise p env t m).state._trackEnded = true ∧
    isEnded (createMuteUnmutePromise p env t m).state = true := by
  have h1 : (_setRealDeviceIdFromDeviceList t devices)._trackEnded = true := by
    unfold _setRealDeviceIdFromDeviceList
    split
    · exact h
    · split
      · exact h
      · exact h
  have h2 : (_onDeviceListChanged t devices)._trackEnded = true := by
    simp only [_onDeviceListChanged]
    split
    · rfl
    · exact h1
  have h3 : (createMuteUnmutePromise p env t m).state._trackEnded = true := by
    by_cases hg : t.inMuteOrUnmuteProgress = true
    · simp [createMuteUnmutePromise, muteUnmuteStart, hg]
      exact h
    · have hg' : t.inMuteOrUnmuteProgress = false := by
        cases hb : t.inMuteOrUnmuteProgress
        · rfl
        · exact absurd hb hg
      have hkey :=
        (setMute_cases p env { t with inMuteOrUnmuteProgress := true } m).1
      simp only [createMuteUnmutePromise, muteUnmuteStart, hg',
        Bool.false_eq_true, if_false, muteUnmuteComplete]
      rw [hkey]
      exact h
  refine ⟨?_, h1, h2, ?_, h3, ?_⟩
  · simp [isEnded, h]
  · simp [isEnded, h2]
  · simp [isEnded, h3]

/-- Witness for C9's amended statement at a concrete flagged track. -/
theorem trackEnded_permanent_witness :
    endedFlagTrack._trackEnded = true ∧
    (isEnded endedFlagTrack = true ∧
      (_setRealDeviceIdFromDeviceList endedFlagTrack [])._trackEnded
        = true ∧
      (_onDeviceListChanged endedFlagTrack [])._trackEnded = true ∧
      isEnded (_onDeviceListChanged endedFlagTrack []) = true ∧
      (createMuteUnmutePromise chromeHttps anyEnv endedFlagTrack
        true).state._trackEnded = true ∧
      isEnded (createMuteUnmutePromise chromeHttps anyEnv endedFlagTrack
        true).state = true) :=
  ⟨by decide,
    trackEnded_permanent chromeHttps anyEnv endedFlagTrack true []
      (by decide)⟩

end JitsiMeet
